import Mathlib

/-!
# LinkedIn AI agent frontend: chat client core, shallowly embedded

This development embeds the chat-client logic of the repository's frontend:
the `ChatProvider` context (`handleWebSocketMessage`, `sendMessageREST`,
`sendMessageWS`, `sendMessage` in `App.jsx`) and the transport modules
(`services/api`: `fetchChatResponse`, `setupChatWebSocket`; `api/api.js`:
`fetchChatResponse`).

React `useState` cells become fields of an explicit `ChatState`; each event
handler becomes a pure state transformer; the issuing half of an async send
(everything before the `await`) is separated from its success/error
continuations; network calls are reified as `TransportAction` values so that
theorems can speak about which transport a send used and with which payload.
JavaScript truthiness tests on optional string/bool fields are modelled by
`strTruthy` / `boolTruthy`.
-/

namespace LinkedinAgent

/-- A chat message as stored in the `messages` state array: `{role, content}`,
with the optional `shouldPost` field that `sendMessageREST` attaches to
assistant replies. -/
structure Msg where
  role : String
  content : String
  shouldPost : Option Bool := none
  deriving Repr, DecidableEq

/-- The part of a browser `WebSocket` object the code inspects:
`websocket.readyState`. -/
structure WS where
  readyState : Nat
  deriving Repr, DecidableEq

/-- `WebSocket.OPEN` is the ready-state constant `1`. -/
def wsOPEN : Nat := 1

/-- The `ChatProvider` state: the `useState` cells `messages`, `isTyping`
(the spec's `awaitingResponse`), `currentPostContent` (the spec's
`pendingPublishContent`), `showPostPreview`, `websocket`, `useWebsocket`. -/
structure ChatState where
  messages : List Msg
  isTyping : Bool
  currentPostContent : Option String
  showPostPreview : Bool
  websocket : Option WS
  useWebsocket : Bool
  deriving Repr, DecidableEq

/-- Initial provider state: empty history, not typing, no pending post,
no socket yet, `useWebsocket` defaults to `true`. -/
def initialState : ChatState :=
  { messages := [], isTyping := false, currentPostContent := none,
    showPostPreview := false, websocket := none, useWebsocket := true }

/-- A parsed WebSocket JSON payload, with every field the handler reads;
absent fields are `none` (JavaScript `undefined`). -/
structure WSData where
  error : Option String := none
  type : Option String := none
  should_post : Option Bool := none
  post_content : Option String := none
  content : Option String := none
  deriving Repr, DecidableEq

/-- JavaScript truthiness of an optional string field: `undefined` and the
empty string are falsy. -/
def strTruthy : Option String → Bool
  | none => false
  | some t => !(t == "")

/-- JavaScript truthiness of an optional boolean field: `undefined` is
falsy. -/
def boolTruthy : Option Bool → Bool
  | none => false
  | some b => b

/-- The user message object `{ role: 'user', content: text }`. -/
def userMsg (text : String) : Msg :=
  { role := "user", content := text }

/-- An assistant message `{ role: 'assistant', content: text }` as created by
the fragment handler. -/
def assistantMsg (text : String) : Msg :=
  { role := "assistant", content := text }

/-- The `setMessages` updater inside the content-chunk branch of
`handleWebSocketMessage`: if the last message is not an assistant message
(or the list is empty) push a fresh assistant message, otherwise replace the
last message with one whose content has `text` appended. -/
def appendFragment (text : String) (msgs : List Msg) : List Msg :=
  match msgs.getLast? with
  | none => msgs ++ [assistantMsg text]
  | some m =>
      if m.role == "assistant" then
        msgs.dropLast ++ [{ m with content := m.content ++ text }]
      else
        msgs ++ [assistantMsg text]

/-- `handleWebSocketMessage(data)`: on a truthy `data.error`, stop typing and
return; on `data.type === 'complete'`, stop typing and, when both
`data.should_post` and `data.post_content` are truthy, store the post content
and show the preview; on a truthy `data.content`, fold the chunk into the
message list; otherwise do nothing. -/
def handleWebSocketMessage (data : WSData) (s : ChatState) : ChatState :=
  if strTruthy data.error then
    { s with isTyping := false }
  else if data.type == some "complete" then
    let s1 := { s with isTyping := false }
    if boolTruthy data.should_post && strTruthy data.post_content then
      { s1 with currentPostContent := data.post_content, showPostPreview := true }
    else
      s1
  else if strTruthy data.content then
    { s with messages := appendFragment (data.content.getD "") s.messages }
  else
    s

/-- A `{role, content}` history entry, the shape `chatHistory` is mapped to
before being sent. -/
structure HistEntry where
  role : String
  content : String
  deriving Repr, DecidableEq

/-- The mapping `messages.map(msg => ({ role: msg.role, content: msg.content }))`
that both send paths apply to the (pre-send) message list. -/
def toHistory (msgs : List Msg) : List HistEntry :=
  msgs.map fun m => { role := m.role, content := m.content }

/-- A reified network call issued by a send: either a `websocket.send` of
`{message, chat_history}` or a REST round trip started by
`fetchChatResponse(message, chatHistory)`. -/
inductive TransportAction where
  | wsSend (message : String) (chat_history : List HistEntry)
  | restCall (message : String) (chat_history : List HistEntry)
  deriving Repr, DecidableEq

/-- Whether an action is a REST round trip. -/
def TransportAction.isRest : TransportAction → Bool
  | .restCall _ _ => true
  | .wsSend _ _ => false

/-- The synchronous half of `sendMessageREST` (before the `await`): set
`isTyping`, append the user message, and issue the REST call with the
message and the history captured from the pre-send `messages` closure. -/
def sendMessageRESTStart (messageText : String) (s : ChatState) :
    ChatState × TransportAction :=
  ({ s with isTyping := true, messages := s.messages ++ [userMsg messageText] },
   .restCall messageText (toHistory s.messages))

/-- A REST reply `{message, should_post, post_content}` as consumed by
`sendMessageREST` after the `await`. -/
structure RestResponse where
  message : String
  should_post : Option Bool := none
  post_content : Option String := none
  deriving Repr, DecidableEq

/-- The success continuation of `sendMessageREST`: append the assistant reply
(carrying `shouldPost`), raise the post preview when both `should_post` and
`post_content` are truthy, and stop typing. -/
def sendMessageRESTSuccess (resp : RestResponse) (s : ChatState) : ChatState :=
  let s1 := { s with messages := s.messages ++
    [({ role := "assistant", content := resp.message, shouldPost := resp.should_post } : Msg)] }
  let s2 :=
    if boolTruthy resp.should_post && strTruthy resp.post_content then
      { s1 with currentPostContent := resp.post_content, showPostPreview := true }
    else
      s1
  { s2 with isTyping := false }

/-- The catch branch of `sendMessageREST`: log the error and stop typing;
nothing else changes. -/
def sendMessageRESTError (s : ChatState) : ChatState :=
  { s with isTyping := false }

/-- `sendMessageWS` up to its transport effect: when the socket is missing or
not `OPEN`, fall back to the REST path for the same message; otherwise set
`isTyping`, append the user message, and send `{message, chat_history}` over
the socket (the history again taken from the pre-send `messages`). -/
def sendMessageWSStart (messageText : String) (s : ChatState) :
    ChatState × Option TransportAction :=
  match s.websocket with
  | none =>
      let r := sendMessageRESTStart messageText s
      (r.1, some r.2)
  | some ws =>
      if ws.readyState ≠ wsOPEN then
        let r := sendMessageRESTStart messageText s
        (r.1, some r.2)
      else
        ({ s with isTyping := true, messages := s.messages ++ [userMsg messageText] },
         some (.wsSend messageText (toHistory s.messages)))

/-- `sendMessage`: use the WebSocket path when `useWebsocket` is set and a
socket object exists, otherwise the REST path. -/
def sendMessage (messageText : String) (s : ChatState) :
    ChatState × Option TransportAction :=
  if s.useWebsocket && s.websocket.isSome then
    sendMessageWSStart messageText s
  else
    let r := sendMessageRESTStart messageText s
    (r.1, some r.2)

/-- A raw wire event as seen by `setupChatWebSocket`'s `onmessage`: either
`JSON.parse(event.data)` succeeds with a payload, or it throws. -/
inductive RawEvent where
  | parsed (data : WSData)
  | malformed
  deriving Repr, DecidableEq

/-- Which caller-supplied callback `setupChatWebSocket` invokes. -/
inductive WSCallback where
  | message (data : WSData)
  | errorCb
  | closeCb
  deriving Repr, DecidableEq

/-- The `ws.onmessage` handler of `setupChatWebSocket`: a payload that parses
is forwarded to `onMessage`; a payload that fails to parse is forwarded to
`onError` (the same callback `ws.onerror` invokes for transport errors). -/
def wsOnMessage : RawEvent → WSCallback
  | .parsed d => .message d
  | .malformed => .errorCb

/-- The `onError` callback the `ChatProvider` registers:
`(error) => console.error(...)` — it does not touch any state. -/
def chatProviderOnError (s : ChatState) : ChatState := s

/-- The `onClose` callback the `ChatProvider` registers:
`() => console.log(...)` — it does not touch any state. -/
def chatProviderOnClose (s : ChatState) : ChatState := s

/-- Dispatch of a `setupChatWebSocket` callback to the `ChatProvider`
handlers. -/
def dispatchCallback : WSCallback → ChatState → ChatState
  | .message d, s => handleWebSocketMessage d s
  | .errorCb, s => chatProviderOnError s
  | .closeCb, s => chatProviderOnClose s

/-- End-to-end handling of one raw wire event: `onmessage` classification
followed by the provider's callback. -/
def dispatchRawEvent (e : RawEvent) (s : ChatState) : ChatState :=
  dispatchCallback (wsOnMessage e) s

/-- Applying a list of fragment events `{content: t}` in arrival order. -/
def applyFragments (ts : List String) (s : ChatState) : ChatState :=
  ts.foldl (fun st t => handleWebSocketMessage { content := some t } st) s

/-- Concatenation of fragment texts in arrival order. -/
def concatTexts : List String → String
  | [] => ""
  | t :: ts => t ++ concatTexts ts

/-- One session input: either the user sends a message or a raw wire event
arrives on the socket. -/
inductive SessionInput where
  | send (text : String)
  | raw (e : RawEvent)
  deriving Repr, DecidableEq

/-- Run a session: thread the state through the inputs, collecting every
transport action that was issued. -/
def runSession : List SessionInput → ChatState → ChatState × List TransportAction
  | [], s => (s, [])
  | .send t :: rest, s =>
      let r := sendMessage t s
      let k := runSession rest r.1
      (k.1, r.2.toList ++ k.2)
  | .raw e :: rest, s =>
      runSession rest (dispatchRawEvent e s)

/-- The body of the POST to `/chat`, tagged by shape: either
`{message, chat_history}` or `{messages}`. -/
inductive ChatRequestBody where
  | messageHistory (message : String) (chat_history : List HistEntry)
  | messagesOnly (messages : List HistEntry)
  deriving Repr, DecidableEq

/-- The request body built by `fetchChatResponse` in `services/api` (the
module the `ChatProvider` imports): `{ messages: chatHistory.concat([{role:
'user', content: message}]) }`. -/
def fetchChatResponseBodyServices (message : String) (chatHistory : List HistEntry) :
    ChatRequestBody :=
  .messagesOnly (chatHistory ++ [{ role := "user", content := message }])

/-- A UI-side message of `api/api.js`: `{isUser, text}`. -/
structure UiMsg where
  isUser : Bool
  text : String
  deriving Repr, DecidableEq

/-- The request body built by `fetchChatResponse` in `api/api.js`:
`{ message: message.trim(), chat_history: formattedHistory }` where the
history entries are mapped from `{isUser, text}` to `{role, content}`. -/
def fetchChatResponseBodyApiJs (message : String) (chatHistory : List UiMsg) :
    ChatRequestBody :=
  .messageHistory message.trim
    (chatHistory.map fun m =>
      { role := if m.isUser then "user" else "assistant", content := m.text })

/-- Whether the last stored message is an assistant message — the test the
fragment handler performs. -/
def lastIsAssistant (msgs : List Msg) : Bool :=
  match msgs.getLast? with
  | none => false
  | some m => m.role == "assistant"

/-- A provider state with a connected, open socket and one user turn,
awaiting the response. -/
def busyState : ChatState :=
  { messages := [userMsg "hi"], isTyping := true, currentPostContent := none,
    showPostPreview := false, websocket := some { readyState := wsOPEN },
    useWebsocket := true }

/-- A provider state whose socket object exists but is closed
(`readyState = 3`). -/
def closedWsState : ChatState :=
  { messages := [userMsg "a", assistantMsg "b"], isTyping := false,
    currentPostContent := none, showPostPreview := false,
    websocket := some { readyState := 3 }, useWebsocket := true }

/-- The state reached from a fresh session with an open socket by sending
"hi", receiving the fragment "ans", and receiving a bare `complete` event. -/
def afterCompleteState : ChatState :=
  let s0 := { initialState with websocket := some { readyState := wsOPEN } }
  let s1 := (sendMessage "hi" s0).1
  let s2 := handleWebSocketMessage { content := some "ans" } s1
  handleWebSocketMessage { type := some "complete" } s2

/-- An open socket and one user turn, with the response still pending:
used to instantiate several general lemmas. -/
def restOnlyState : ChatState :=
  { initialState with useWebsocket := false }

/-- The error payload `{error: "boom"}`. -/
def errEvent : WSData :=
  { error := some "boom" }

section Lemmas

/-- A fragment with empty text is dropped by the handler: every branch
condition is falsy. -/
lemma handle_fragment_empty (s : ChatState) :
    handleWebSocketMessage { content := some "" } s = s := rfl

/-- On a pure content event, the handler reduces to a guarded fold of the
chunk into the message list. -/
lemma handleWS_fragment (t : String) (s : ChatState) :
    handleWebSocketMessage { content := some t } s
      = if !(t == "") then { s with messages := appendFragment t s.messages }
        else s := rfl

/-- When the last message is not an assistant message, `appendFragment`
pushes a fresh assistant message. -/
lemma appendFragment_not_assistant (msgs : List Msg) (t : String)
    (h : lastIsAssistant msgs = false) :
    appendFragment t msgs = msgs ++ [assistantMsg t] := by
  unfold lastIsAssistant at h
  unfold appendFragment
  cases hm : msgs.getLast? with
  | none => simp
  | some m =>
      rw [hm] at h
      simp at h
      simp [h]

/-- When the last message is an assistant message, `appendFragment` extends
its content. -/
lemma appendFragment_assistant (ms : List Msg) (m : Msg) (t : String)
    (hm : (m.role == "assistant") = true) :
    appendFragment t (ms ++ [m]) = ms ++ [{ m with content := m.content ++ t }] := by
  unfold appendFragment
  rw [List.getLast?_concat, List.dropLast_concat]
  simp [hm]

/-- A nonempty fragment arriving while the trailing message is an assistant
message appends its text to that message and changes nothing else. -/
lemma handle_fragment_append (s : ChatState) (ms : List Msg) (m : Msg) (t : String)
    (hm : (m.role == "assistant") = true) (hs : s.messages = ms ++ [m])
    (ht : (t == "") = false) :
    handleWebSocketMessage { content := some t } s
      = { s with messages := ms ++ [{ m with content := m.content ++ t }] } := by
  rw [handleWS_fragment, hs, appendFragment_assistant ms m t hm]
  simp [ht]

/-- Folding a fragment list into a state whose trailing message is an
assistant message appends the concatenation of all the texts to that
message. -/
lemma applyFragments_trailing_assistant (ts : List String) (s : ChatState)
    (ms : List Msg) (m : Msg)
    (hm : (m.role == "assistant") = true) (hs : s.messages = ms ++ [m]) :
    applyFragments ts s
      = { s with messages := ms ++ [{ m with content := m.content ++ concatTexts ts }] } := by
  induction ts generalizing s m with
  | nil =>
      show s = _
      rw [concatTexts, String.append_empty, ← hs]
  | cons t ts ih =>
      show applyFragments ts (handleWebSocketMessage { content := some t } s) = _
      by_cases ht : (t == "") = true
      · have ht2 : t = "" := eq_of_beq ht
        subst ht2
        rw [handle_fragment_empty, ih s m hm hs, concatTexts, String.empty_append]
      · rw [handle_fragment_append s ms m t hm hs (by simp at ht; simp [ht])]
        rw [ih _ { m with content := m.content ++ t } hm rfl]
        rw [concatTexts]
        simp [String.append_assoc]

end Lemmas

/-- Claim C1 (amended): for every state whose last turn is not an assistant
turn, applying a sequence of Fragment events that contains at least one
nonempty text yields exactly one new ASSISTANT turn whose content is the
concatenation of the fragment texts in arrival order; fragments with empty
text are dropped without effect (so an all-empty sequence creates no turn at
all, which is why the nonemptiness hypothesis is needed). -/
theorem c1_fragment_concat (ts : List String) (s : ChatState)
    (hlast : lastIsAssistant s.messages = false)
    (hne : ts.any (fun t => !(t == "")) = true) :
    applyFragments ts s
      = { s with messages := s.messages ++ [assistantMsg (concatTexts ts)] } := by
  induction ts generalizing s with
  | nil => simp at hne
  | cons t ts ih =>
      show applyFragments ts (handleWebSocketMessage { content := some t } s) = _
      by_cases ht : (t == "") = true
      · have ht2 : t = "" := eq_of_beq ht
        subst ht2
        rw [handle_fragment_empty]
        have hne2 : ts.any (fun t => !(t == "")) = true := by simpa using hne
        rw [ih s hlast hne2, concatTexts, String.empty_append]
      · have ht2 : (t == "") = false := by simpa using ht
        rw [handleWS_fragment]
        simp only [ht2, Bool.not_false, if_pos]
        rw [appendFragment_not_assistant s.messages t hlast]
        rw [applyFragments_trailing_assistant ts _ s.messages (assistantMsg t) rfl rfl]
        rw [concatTexts]
        simp [assistantMsg]

/-- Claim C1, counterexample to the claim as stated: the Fragment sequence
`[""]` delivered after a user turn yields no ASSISTANT turn at all (the
handler drops falsy content), not exactly one. -/
theorem c1_counterexample :
    ((applyFragments [""] busyState).messages.filter
        (fun m => m.role == "assistant")).length ≠ 1 := by
  decide

/-- Claim C1, witness: the general theorem applied to the concrete sequence
`["Here ", "are tips..."]` after the user turn of `busyState`. -/
theorem c1_witness :
    applyFragments ["Here ", "are tips..."] busyState
      = { busyState with messages :=
            busyState.messages ++ [assistantMsg (concatTexts ["Here ", "are tips..."])] } :=
  c1_fragment_concat ["Here ", "are tips..."] busyState (by decide) (by decide)

/-- Claim C2 (amended): after any Error stream event (truthy `error` field),
`awaitingResponse` (`isTyping`) is false and nothing else changes — the turn
list does not grow and no user-visible error turn is created (the handler
only logs the error to the console); likewise the REST error continuation
only resets `isTyping`. -/
theorem c2_error_resets_only (d : WSData) (s : ChatState)
    (h : strTruthy d.error = true) :
    handleWebSocketMessage d s = { s with isTyping := false }
      ∧ sendMessageRESTError s = { s with isTyping := false } := by
  constructor
  · unfold handleWebSocketMessage
    simp [h]
  · rfl

/-- Claim C2, counterexample to the claim as stated: the error event
`{error: "boom"}` applied to a busy one-turn state leaves the turn list
length at 1, not 2 — no error turn is appended. -/
theorem c2_counterexample :
    (handleWebSocketMessage errEvent busyState).messages.length
      ≠ busyState.messages.length + 1 := by
  decide

/-- Claim C2, witness: the amended theorem at `{error: "boom"}` and
`busyState`. -/
theorem c2_witness :
    handleWebSocketMessage errEvent busyState = { busyState with isTyping := false }
      ∧ sendMessageRESTError busyState = { busyState with isTyping := false } :=
  c2_error_resets_only errEvent busyState (by decide)

/-- Claim C3 (amended): a nonempty Fragment arriving after `Complete` is not
dropped — the store keeps no in-progress flag, so the straggler appends its
text to the trailing (already finalized) ASSISTANT turn; no other field
changes, so the state stays well-formed but the finalized content is
altered. -/
theorem c3_straggler_appends (s : ChatState) (ms : List Msg) (m : Msg) (t : String)
    (hm : (m.role == "assistant") = true) (hs : s.messages = ms ++ [m])
    (ht : (t == "") = false) :
    handleWebSocketMessage { content := some t } s
      = { s with messages := ms ++ [{ m with content := m.content ++ t }] } :=
  handle_fragment_append s ms m t hm hs ht

/-- Claim C3, counterexample to the claim as stated: after the scripted
send/fragment/complete run, the finalized ASSISTANT turn holds "ans"; a
straggler fragment "X" then mutates it to "ansX" instead of being
dropped. -/
theorem c3_counterexample :
    afterCompleteState.messages = [userMsg "hi", assistantMsg "ans"]
      ∧ (handleWebSocketMessage { content := some "X" } afterCompleteState).messages
          = [userMsg "hi", assistantMsg "ansX"] := by
  decide

/-- Claim C3, witness: the amended theorem at the concrete post-`Complete`
state and the fragment "X". -/
theorem c3_witness :
    handleWebSocketMessage { content := some "X" } afterCompleteState
      = { afterCompleteState with messages :=
            [userMsg "hi"] ++ [{ assistantMsg "ans" with
              content := (assistantMsg "ans").content ++ "X" }] } :=
  c3_straggler_appends afterCompleteState [userMsg "hi"] (assistantMsg "ans") "X"
    (by decide) (by decide) (by decide)

/-- Claim C4 (amended): `sendMessage` performs no `awaitingResponse` guard —
called while `isTyping` is already true it is not rejected: on every
transport branch it still appends the USER turn, leaves `isTyping` true, and
issues the send (over the socket or over REST) carrying the same message and
the prior history, so a second outstanding exchange can be started. -/
theorem c4_no_guard (s : ChatState) (t : String) (_h : s.isTyping = true) :
    (sendMessage t s).1.messages = s.messages ++ [userMsg t]
      ∧ (sendMessage t s).1.isTyping = true
      ∧ ((sendMessage t s).2 = some (.wsSend t (toHistory s.messages))
          ∨ (sendMessage t s).2 = some (.restCall t (toHistory s.messages))) := by
  unfold sendMessage sendMessageWSStart sendMessageRESTStart
  by_cases hb : (s.useWebsocket && s.websocket.isSome) = true
  · simp only [hb, if_true]
    cases hw : s.websocket with
    | none => simp
    | some ws =>
        by_cases hr : ws.readyState = wsOPEN
        · simp [hr]
        · simp [hr]
  · simp [hb]

/-- Claim C4, counterexample to the claim as stated: on `busyState`
(`isTyping = true`), `sendMessage "x"` mutates the turn list instead of
being rejected. -/
theorem c4_counterexample :
    (sendMessage "x" busyState).1.messages ≠ busyState.messages := by
  decide

/-- Claim C4, witness: the amended theorem at `busyState` and message
"x". -/
theorem c4_witness :
    (sendMessage "x" busyState).1.messages = busyState.messages ++ [userMsg "x"]
      ∧ (sendMessage "x" busyState).1.isTyping = true
      ∧ ((sendMessage "x" busyState).2
            = some (.wsSend "x" (toHistory busyState.messages))
          ∨ (sendMessage "x" busyState).2
            = some (.restCall "x" (toHistory busyState.messages))) :=
  c4_no_guard busyState "x" (by decide)

/-- Whether the streaming transport is unusable for a send: no socket object,
or its `readyState` is not `OPEN`. -/
def wsUnavailable (s : ChatState) : Bool :=
  match s.websocket with
  | none => true
  | some ws => ws.readyState != wsOPEN

/-- Claim C5 (amended): when `useWebsocket` is set but the socket is absent
or not open, the send falls back to a REST call carrying the same message
and the prior history — but no `REST_ONLY` demotion happens: `useWebsocket`
stays true, so the next send will attempt the streaming transport again. -/
theorem c5_fallback_no_demotion (s : ChatState) (t : String)
    (hu : s.useWebsocket = true) (hw : wsUnavailable s = true) :
    (sendMessage t s).2 = some (.restCall t (toHistory s.messages))
      ∧ (sendMessage t s).1.useWebsocket = true
      ∧ (sendMessage t s).1.messages = s.messages ++ [userMsg t] := by
  unfold wsUnavailable at hw
  unfold sendMessage sendMessageWSStart sendMessageRESTStart
  cases hws : s.websocket with
  | none => simp [hu, hws]
  | some ws =>
      rw [hws] at hw
      simp only [bne_iff_ne, ne_eq] at hw
      simp [hu, hws, hw]

/-- Claim C5, counterexample to the claim as stated: with a closed socket the
send is indeed replayed via REST with the same message and prior history,
but the policy does not transition to `REST_ONLY` — `useWebsocket` is still
true afterwards. -/
theorem c5_counterexample :
    (sendMessage "x" closedWsState).2
        = some (TransportAction.restCall "x" (toHistory closedWsState.messages))
      ∧ (sendMessage "x" closedWsState).1.useWebsocket = true := by
  decide

/-- Claim C5, witness: the amended theorem at `closedWsState` and message
"x". -/
theorem c5_witness :
    (sendMessage "x" closedWsState).2
        = some (.restCall "x" (toHistory closedWsState.messages))
      ∧ (sendMessage "x" closedWsState).1.useWebsocket = true
      ∧ (sendMessage "x" closedWsState).1.messages
          = closedWsState.messages ++ [userMsg "x"] :=
  c5_fallback_no_demotion closedWsState "x" (by decide) (by decide)

section TransportPreservation

/-- `handleWebSocketMessage` never touches the transport fields: the socket
is neither closed nor reopened and the transport choice is unchanged. -/
lemma handleWS_preserves_transport (d : WSData) (s : ChatState) :
    (handleWebSocketMessage d s).websocket = s.websocket
      ∧ (handleWebSocketMessage d s).useWebsocket = s.useWebsocket := by
  unfold handleWebSocketMessage
  split_ifs <;> simp

/-- Raw-event dispatch never touches the transport fields either. -/
lemma dispatch_preserves_transport (e : RawEvent) (s : ChatState) :
    (dispatchRawEvent e s).websocket = s.websocket
      ∧ (dispatchRawEvent e s).useWebsocket = s.useWebsocket := by
  cases e with
  | parsed d => exact handleWS_preserves_transport d s
  | malformed => exact ⟨rfl, rfl⟩

/-- With `useWebsocket` cleared, `sendMessage` reduces to the REST path. -/
lemma sendMessage_restOnly (t : String) (s : ChatState)
    (h : s.useWebsocket = false) :
    sendMessage t s = ((sendMessageRESTStart t s).1, some (sendMessageRESTStart t s).2) := by
  unfold sendMessage
  simp [h]

end TransportPreservation

/-- Claim C6 (confirmed): once the session is in `REST_ONLY`
(`useWebsocket = false`), streaming is never retried — over any sequence of
sends and raw socket events, every transport action issued is a REST call
(never a `wsSend`), the socket field is never touched (no reconnection), and
the session stays in `REST_ONLY`. -/
theorem c6_rest_only_locked (ins : List SessionInput) (s : ChatState)
    (h : s.useWebsocket = false) :
    ((runSession ins s).2.all TransportAction.isRest) = true
      ∧ (runSession ins s).1.websocket = s.websocket
      ∧ (runSession ins s).1.useWebsocket = false := by
  induction ins generalizing s with
  | nil => exact ⟨rfl, rfl, h⟩
  | cons i rest ih =>
      cases i with
      | send t =>
          simp only [runSession]
          rw [sendMessage_restOnly t s h]
          have h2 : (sendMessageRESTStart t s).1.useWebsocket = false := h
          obtain ⟨ha, hw, hu⟩ := ih (sendMessageRESTStart t s).1 h2
          refine ⟨?_, hw, hu⟩
          simp only [Option.toList_some, List.all_append, List.all_cons, List.all_nil,
            ha, Bool.and_true]
          rfl
      | raw e =>
          simp only [runSession]
          have hpres := dispatch_preserves_transport e s
          have h2 : (dispatchRawEvent e s).useWebsocket = false := by
            rw [hpres.2, h]
          obtain ⟨ha, hw, hu⟩ := ih (dispatchRawEvent e s) h2
          exact ⟨ha, by rw [hw, hpres.1], hu⟩

/-- Claim C6, witness: a `REST_ONLY` session with two sends and an
interleaved malformed event issues only REST calls and leaves the socket
field untouched. -/
theorem c6_witness :
    ((runSession [.send "a", .raw .malformed, .send "b"] restOnlyState).2.all
        TransportAction.isRest) = true
      ∧ (runSession [.send "a", .raw .malformed, .send "b"] restOnlyState).1.websocket
          = restOnlyState.websocket
      ∧ (runSession [.send "a", .raw .malformed, .send "b"] restOnlyState).1.useWebsocket
          = false :=
  c6_rest_only_locked [.send "a", .raw .malformed, .send "b"] restOnlyState (by decide)

/-- Claim C7 (amended): a malformed stream payload is routed to the `onError`
callback — the same channel a transport-level WebSocket error uses — but the
provider's `onError` only logs to the console, so the state is completely
unchanged: `awaitingResponse` is not reset and no user-visible ASSISTANT turn
is created. -/
theorem c7_malformed_only_logged (s : ChatState) :
    dispatchRawEvent .malformed s = dispatchCallback .errorCb s
      ∧ dispatchRawEvent .malformed s = s :=
  ⟨rfl, rfl⟩

/-- Claim C7, counterexample to the claim as stated: a malformed payload
arriving on `busyState` leaves `isTyping` true and the turn list unchanged,
contradicting "awaitingResponse is reset to false and the error surfaces as
a user-visible ASSISTANT turn". -/
theorem c7_counterexample :
    (dispatchRawEvent .malformed busyState).isTyping = true
      ∧ (dispatchRawEvent .malformed busyState).messages = busyState.messages := by
  decide

/-- Claim C8 (amended): only the `api/api.js` variant of `fetchChatResponse`
posts a `{message, chat_history}` body (with the message trimmed and the
history mapped from `{isUser, text}` to `{role, content}`); the
`services/api` variant — the one the chat provider imports — instead posts
`{messages: chat_history ++ [{role: 'user', content: message}]}` and never
produces the `{message, chat_history}` shape. -/
theorem c8_body_shapes (m : String) (hist : List HistEntry) (uhist : List UiMsg) :
    (¬ ∃ mm hh, fetchChatResponseBodyServices m hist
        = ChatRequestBody.messageHistory mm hh)
      ∧ fetchChatResponseBodyServices m hist
          = ChatRequestBody.messagesOnly (hist ++ [{ role := "user", content := m }])
      ∧ fetchChatResponseBodyApiJs m uhist
          = ChatRequestBody.messageHistory m.trim
              (uhist.map fun u =>
                { role := if u.isUser then "user" else "assistant", content := u.text }) := by
  refine ⟨?_, rfl, rfl⟩
  rintro ⟨mm, hh, heq⟩
  simp [fetchChatResponseBodyServices] at heq

/-- Claim C8, counterexample to the claim as stated: the request body built
by the `services/api` `fetchChatResponse` for message "hi" with empty
history is not of the `{message, chat_history}` shape for any message and
history. -/
theorem c8_counterexample :
    ¬ ∃ mm hh, fetchChatResponseBodyServices "hi" []
        = ChatRequestBody.messageHistory mm hh := by
  rintro ⟨mm, hh, heq⟩
  simp [fetchChatResponseBodyServices] at heq

/-- The fresh session with an open socket that claim C9's scenario starts
from. -/
def c9Start : ChatState :=
  { initialState with websocket := some { readyState := wsOPEN } }

/-- The state reached by claim C9's scenario: send "Career tips", receive the
fragments "Here " and "are tips...", then the publishing `complete`
event. -/
def c9Final : ChatState :=
  let r := sendMessage "Career tips" c9Start
  let s2 := handleWebSocketMessage { content := some "Here " } r.1
  let s3 := handleWebSocketMessage { content := some "are tips..." } s2
  handleWebSocketMessage
    { type := some "complete", should_post := some true,
      post_content := some "Here are tips..." } s3

/-- Claim C9 (confirmed): the scripted scenario ends with exactly the two
turns `USER:"Career tips"` and `ASSISTANT:"Here are tips..."`, with
`isTyping` false and `currentPostContent` (the pending publish content) set
to "Here are tips..."; the send itself went out over the socket with the
empty prior history. -/
theorem c9_scenario :
    c9Final.messages = [userMsg "Career tips", assistantMsg "Here are tips..."]
      ∧ c9Final.isTyping = false
      ∧ c9Final.currentPostContent = some "Here are tips..."
      ∧ (sendMessage "Career tips" c9Start).2 = some (.wsSend "Career tips" []) := by
  decide

/-- Claim C10 (confirmed): on a `complete` event and on a REST reply alike,
the publish offer is gated on both flags being truthy — `currentPostContent`
and `showPostPreview` are set exactly when `should_post` is truthy and
`post_content` is truthy (present and nonempty); otherwise both keep their
previous values. -/
theorem c10_publish_gate (d : WSData) (s : ChatState) (resp : RestResponse)
    (he : strTruthy d.error = false) (hc : d.type = some "complete") :
    ((handleWebSocketMessage d s).currentPostContent
        = if boolTruthy d.should_post && strTruthy d.post_content then d.post_content
          else s.currentPostContent)
      ∧ ((handleWebSocketMessage d s).showPostPreview
        = if boolTruthy d.should_post && strTruthy d.post_content then true
          else s.showPostPreview)
      ∧ ((sendMessageRESTSuccess resp s).currentPostContent
        = if boolTruthy resp.should_post && strTruthy resp.post_content then resp.post_content
          else s.currentPostContent)
      ∧ ((sendMessageRESTSuccess resp s).showPostPreview
        = if boolTruthy resp.should_post && strTruthy resp.post_content then true
          else s.showPostPreview) := by
  refine ⟨?_, ?_, ?_, ?_⟩
  · unfold handleWebSocketMessage
    simp [he, hc]
    split_ifs <;> simp_all
  · unfold handleWebSocketMessage
    simp [he, hc]
    split_ifs <;> simp_all
  · unfold sendMessageRESTSuccess
    split_ifs <;> simp
  · unfold sendMessageRESTSuccess
    split_ifs <;> simp

/-- The `complete` event with `should_post` set but an empty
`post_content`. -/
def completeEmptyPost : WSData :=
  { type := some "complete", should_post := some true, post_content := some "" }

/-- The REST reply with `should_post` set but an empty `post_content`. -/
def restEmptyPost : RestResponse :=
  { message := "m", should_post := some true, post_content := some "" }

/-- Claim C10, witness: at a `complete` event and a REST reply whose
`should_post` is true but whose `post_content` is the empty string, the
publish fields keep their previous values. -/
theorem c10_witness :
    ((handleWebSocketMessage completeEmptyPost busyState).currentPostContent
        = if boolTruthy completeEmptyPost.should_post
              && strTruthy completeEmptyPost.post_content then
            completeEmptyPost.post_content
          else busyState.currentPostContent)
      ∧ ((handleWebSocketMessage completeEmptyPost busyState).showPostPreview
        = if boolTruthy completeEmptyPost.should_post
              && strTruthy completeEmptyPost.post_content then true
          else busyState.showPostPreview)
      ∧ ((sendMessageRESTSuccess restEmptyPost busyState).currentPostContent
        = if boolTruthy restEmptyPost.should_post
              && strTruthy restEmptyPost.post_content then
            restEmptyPost.post_content
          else busyState.currentPostContent)
      ∧ ((sendMessageRESTSuccess restEmptyPost busyState).showPostPreview
        = if boolTruthy restEmptyPost.should_post
              && strTruthy restEmptyPost.post_content then true
          else busyState.showPostPreview) :=
  c10_publish_gate completeEmptyPost busyState restEmptyPost (by decide) (by decide)

end LinkedinAgent
